import Mathlib

set_option autoImplicit false

/-!
Shallow embedding of the Protein Store backend (src/main.py and
src/schemas.py).

The storage layer (module `database`: `db`, `create_document`,
`get_documents`) is imported by src/main.py but its file is not among the
sources; those operations, together with the store-side evaluation of
MongoDB filter documents and the pydantic validation engine, are modelled
from the spec where the doc comments say so.  Native MongoDB ObjectId
values are modelled as natural numbers; their external form is a
24-character hexadecimal string.
-/

/-- Product record, translated from src/schemas.py lines 28-41.  Field
defaults mirror the pydantic field declarations: `in_stock` defaults to
true, the optional fields to none. -/
structure Product where
  title : String
  description : Option String := none
  price : Rat
  category : String
  in_stock : Bool := true
  image : Option String := none
  protein_grams : Option Int := none
  calories : Option Int := none
  tags : Option (List String) := none
deriving Repr, DecidableEq

/-- Lower-casing of a string, character by character. -/
def lowerStr (s : String) : String :=
  String.mk (s.data.map Char.toLower)

/-- Boolean test that `ns` occurs as a contiguous run inside `hs`. -/
def hasSubstr (ns : List Char) : List Char → Bool
  | [] => ns.isEmpty
  | c :: t => List.isPrefixOf ns (c :: t) || hasSubstr ns t

/-- Case-insensitive substring test: `needle` occurs in `haystack` once
both are lower-cased.  This is the meaning of the regex clause the handlers build,
`$regex = term` with option `i` for a term free of regex metacharacters. -/
def containsCI (haystack needle : String) : Bool :=
  hasSubstr (lowerStr needle).toList (lowerStr haystack).toList

/-- A MongoDB filter document as the handlers of src/main.py build it: at
most an `_id` equality, a `category` equality, and an `$or` list of three
case-insensitive regex clauses over title, description and tags sharing
one term. -/
structure FilterDoc where
  idEq : Option Nat := none
  categoryEq : Option String := none
  orTerm : Option String := none
deriving Repr, DecidableEq

/-- Python truthiness of an `Optional[str]` value: `None` and the empty
string are falsy, every other string truthy. -/
def truthy : Option String → Bool
  | none => false
  | some s => !s.isEmpty

/-- FilterDoc construction of `list_products` (src/main.py lines 80-88):
`if category:` adds the exact-match key and `if q:` adds the `$or` regex
list, so a missing or empty parameter contributes nothing. -/
def build_filter (category q : Option String) : FilterDoc :=
  let f0 : FilterDoc := {}
  let f1 := if truthy category then { f0 with categoryEq := category } else f0
  if truthy q then { f1 with orTerm := q } else f1

/-- Modelled from the spec: the free-text `$or` condition as the store
evaluates it — a logical OR of case-insensitive substring conditions on
title, description and tags; a condition on an absent (null) field does
not match, and a condition on the tags array matches when some element
matches. -/
def matchesOr (t : String) (p : Product) : Bool :=
  containsCI p.title t ||
    (match p.description with
     | none => false
     | some d => containsCI d t) ||
    (match p.tags with
     | none => false
     | some ts => ts.any (fun tg => containsCI tg t))

/-- Modelled from the spec: evaluation of a filter document against one
stored document (the store side of the missing `get_documents`).
Top-level keys combine with logical AND; an absent key constrains
nothing. -/
def matchesFilter (f : FilterDoc) (i : Nat) (p : Product) : Bool :=
  (match f.idEq with
   | none => true
   | some n => i == n) &&
  (match f.categoryEq with
   | none => true
   | some c => p.category == c) &&
  (match f.orTerm with
   | none => true
   | some t => matchesOr t p)

/-- Modelled from the spec: the `product` collection with its
store-assigned identifiers, in insertion order.  Identifiers come from a
counter, so a freshly assigned identifier differs from every identifier
assigned before. -/
structure Store where
  docs : List (Nat × Product) := []
  nextId : Nat := 0
deriving Repr, DecidableEq

/-- Modelled from the spec: `create_document` (missing `database` module)
persists the payload under the collection and returns a freshly assigned
identifier. -/
def create_document (s : Store) (p : Product) : Nat × Store :=
  (s.nextId, { docs := s.docs ++ [(s.nextId, p)], nextId := s.nextId + 1 })

/-- Modelled from the spec: `get_documents` (missing `database` module)
applies the filter and returns at most `limit` matching documents, in
insertion order; no match is an empty list, not an error. -/
def get_documents (s : Store) (f : FilterDoc) (limit : Nat) : List (Nat × Product) :=
  (s.docs.filter (fun e => matchesFilter f e.1 e.2)).take limit

/-- Hexadecimal-digit test, both cases, as `bytes.fromhex` accepts. -/
def isHexDigit (c : Char) : Bool :=
  c.isDigit || ('a' ≤ c && c ≤ 'f') || ('A' ≤ c && c ≤ 'F')

/-- Validity of an external identifier string: `bson.ObjectId` accepts
exactly the 24-character hexadecimal strings (besides non-string inputs
that cannot arrive through this path). -/
def isValidObjectId (s : String) : Bool :=
  s.length == 24 && s.toList.all isHexDigit

/-- Numeric value of one hexadecimal digit. -/
def hexVal (c : Char) : Nat :=
  if c.isDigit then c.toNat - '0'.toNat
  else if 'a' ≤ c && c ≤ 'f' then c.toNat - 'a'.toNat + 10
  else c.toNat - 'A'.toNat + 10

/-- Numeric value of a hexadecimal identifier string: the modelled native
identifier it decodes to. -/
def natOfHex (s : String) : Nat :=
  s.toList.foldl (fun n c => 16 * n + hexVal c) 0

/-- Python exception values that can arise in the handler bodies of
src/main.py: `fastapi.HTTPException` and `bson.errors.InvalidId`. -/
inductive PyExc where
  | http (status : Nat) (detail : String)
  | invalidId (s : String)
deriving Repr, DecidableEq

/-- Rendering `str(e)`: starlette renders an `HTTPException` as its status
code, a colon and the detail; `InvalidId` carries the bson message naming
the offending string. -/
def strOfExc : PyExc → String
  | .http status detail => toString status ++ ": " ++ detail
  | .invalidId s =>
      s ++ " is not a valid ObjectId, it must be a 12-byte input or a 24-character hex string"

/-- HTTP-level outcome of a handler: a JSON document, a list of documents,
a created identifier, or an error response with status code and detail. -/
inductive Resp where
  | ok (doc : Nat × Product)
  | items (docs : List (Nat × Product))
  | created (id : Nat)
  | err (status : Nat) (detail : String)
deriving Repr, DecidableEq

/-- Body of `get_product` (src/main.py lines 100-106) before its
`except` clause: `ObjectId(product_id)` raises `InvalidId` on a malformed
string, and an empty query result raises `HTTPException(404)`. -/
def get_product_body (s : Store) (product_id : String) : Except PyExc (Nat × Product) :=
  if isValidObjectId product_id then
    match get_documents s { idEq := some (natOfHex product_id) } 1 with
    | [] => .error (.http 404 "Product not found")
    | d :: _ => .ok d
  else .error (.invalidId product_id)

/-- `get_product` (src/main.py lines 98-108): the handler wraps its whole
body in `try`, and the clause `except Exception as e` re-raises every
exception — the 404 `HTTPException` included — as
`HTTPException(500, str(e))`. -/
def get_product (s : Store) (product_id : String) : Resp :=
  match get_product_body s product_id with
  | .ok d => .ok d
  | .error e => .err 500 (strOfExc e)

/-- `list_products` (src/main.py lines 78-96): builds the filter from the
optional `category` and `q` parameters and queries with the given limit,
which the route declares with default value 50. -/
def list_products (s : Store) (category q : Option String) (limit : Nat := 50) :
    List (Nat × Product) :=
  get_documents s (build_filter category q) limit

/-- The four sample products of `seed_products` (src/main.py lines
118-163). -/
def sample_products : List Product :=
  [{ title := "Protein Pizza (100g Protein)"
     description := some "Stone-baked high-protein pizza with 100g protein per pie. Crispy crust, low-carb."
     price := 14.99
     category := "food"
     in_stock := true
     image := some "https://images.unsplash.com/photo-1542281286-9e0a16bb7366"
     protein_grams := some 100
     calories := some 980
     tags := some ["pizza", "high-protein", "meal"] },
   { title := "Whey Protein Powder (2lb)"
     description := some "Ultra-filtered whey with 24g protein per scoop. Mixes instantly."
     price := 29.99
     category := "powder"
     in_stock := true
     image := some "https://images.unsplash.com/photo-1517673400267-0251440c45dc"
     protein_grams := some 24
     calories := some 120
     tags := some ["powder", "whey", "shake"] },
   { title := "Vegan Protein Blend (2lb)"
     description := some "Pea + rice protein for a complete amino acid profile."
     price := 32.99
     category := "powder"
     in_stock := true
     image := some "https://images.unsplash.com/photo-1517957754645-708b06a1bbb2"
     protein_grams := some 22
     calories := some 110
     tags := some ["vegan", "powder"] },
   { title := "Protein Cookies (12-pack)"
     description := some "Soft-baked cookies with 16g protein per cookie."
     price := 19.99
     category := "snack"
     in_stock := true
     image := some "https://images.unsplash.com/photo-1547414362-527f27b7b797"
     protein_grams := some 16
     calories := some 220
     tags := some ["snack", "cookie"] }]

/-- `seed_products` (src/main.py lines 112-168): queries the product
collection with the empty filter and limit 1; when any document exists the
call changes nothing, otherwise it creates one document per sample
product. -/
def seed_products (s : Store) : Store × String :=
  match get_documents s {} 1 with
  | [] =>
      (sample_products.foldl (fun st p => (create_document st p).2) s,
       "Seeded sample products")
  | _ :: _ => (s, "Products already seeded")

/-- JSON-like values of an incoming request body. -/
inductive JVal where
  | jnull
  | jbool (b : Bool)
  | jint (n : Int)
  | jnum (q : Rat)
  | jstr (s : String)
  | jarr (xs : List JVal)

/-- A request body: a mapping of keys to JSON values, first entry wins on
lookup (Python dicts hold each key once). -/
def lookupKey : List (String × JVal) → String → Option JVal
  | [], _ => none
  | (k, v) :: t, n => if k = n then some v else lookupKey t n

/-- Admissible values for a required string field. -/
def okStr : JVal → Bool
  | .jstr _ => true
  | _ => false

/-- Admissible values for an optional string field. -/
def okOptStr : JVal → Bool
  | .jnull => true
  | .jstr _ => true
  | _ => false

/-- Admissible values for the required field `price`: a number with
`ge=0`. -/
def okPrice : JVal → Bool
  | .jint n => decide (0 ≤ n)
  | .jnum q => decide (0 ≤ q)
  | _ => false

/-- Admissible values for a boolean field. -/
def okBool : JVal → Bool
  | .jbool _ => true
  | _ => false

/-- Admissible values for an optional integer field with `ge=0`. -/
def okOptNonnegInt : JVal → Bool
  | .jnull => true
  | .jint n => decide (0 ≤ n)
  | _ => false

/-- Admissible values for the optional field `tags`: a list of strings. -/
def okOptStrList : JVal → Bool
  | .jnull => true
  | .jarr xs => xs.all okStr
  | _ => false

/-- The declared constraints of the `Product` schema (src/schemas.py lines
28-41): field name, whether the field is required, and its admissible
values. -/
def product_fields : List (String × Bool × (JVal → Bool)) :=
  [("title", true, okStr),
   ("description", false, okOptStr),
   ("price", true, okPrice),
   ("category", true, okStr),
   ("in_stock", false, okBool),
   ("image", false, okOptStr),
   ("protein_grams", false, okOptNonnegInt),
   ("calories", false, okOptNonnegInt),
   ("tags", false, okOptStrList)]

/-- Modelled from the spec: pydantic-style validation of a `Product` body
("checks for each declared field the presence (if required), type, and bound
constraints").  Every declared field is visited and an error entry is
collected per violated field — the walk never stops at the first failure —
and the payload itself is handed back untouched. -/
def validate_product (p : List (String × JVal)) :
    List String × List (String × JVal) :=
  ((product_fields.filter (fun fld =>
      match lookupKey p fld.1 with
      | none => fld.2.1
      | some v => !fld.2.2 v)).map (fun fld => fld.1), p)

/-- A named field with requiredness `req` and admissible values `ok` is
violated in a payload when it is required but missing, or present with an
inadmissible value. -/
def field_violated (p : List (String × JVal)) (name : String) (req : Bool)
    (ok : JVal → Bool) : Prop :=
  (lookupKey p name = none ∧ req = true) ∨
    (∃ v, lookupKey p name = some v ∧ ok v = false)

/-- Modelled from the spec: pydantic parsing of a request body into a
`Product`.  The default pydantic configuration ignores keys that are not
declared on the model — extra keys such as `_id` or `id` are dropped — so
the record is built from the declared keys alone; a validation failure
carries the list of violated fields. -/
def parse_product (p : List (String × JVal)) : Except (List String) Product :=
  match (validate_product p).1 with
  | [] =>
      .ok
        { title :=
            match lookupKey p "title" with
            | some (.jstr s) => s
            | _ => ""
          description :=
            match lookupKey p "description" with
            | some (.jstr s) => some s
            | _ => none
          price :=
            match lookupKey p "price" with
            | some (.jint n) => (n : Rat)
            | some (.jnum q) => q
            | _ => 0
          category :=
            match lookupKey p "category" with
            | some (.jstr s) => s
            | _ => ""
          in_stock :=
            match lookupKey p "in_stock" with
            | some (.jbool b) => b
            | _ => true
          image :=
            match lookupKey p "image" with
            | some (.jstr s) => some s
            | _ => none
          protein_grams :=
            match lookupKey p "protein_grams" with
            | some (.jint n) => some n
            | _ => none
          calories :=
            match lookupKey p "calories" with
            | some (.jint n) => some n
            | _ => none
          tags :=
            match lookupKey p "tags" with
            | some (.jarr xs) =>
                some (xs.filterMap (fun v =>
                  match v with
                  | .jstr s => some s
                  | _ => none))
            | _ => none }
  | es => .error es

/-- `create_product` (src/main.py lines 64-70) together with the FastAPI
body validation: an invalid body is rejected with status 422 before the
handler runs; otherwise the handler persists the parsed product through
`create_document` and returns the fresh identifier. -/
def create_product (s : Store) (body : List (String × JVal)) : Store × Resp :=
  match parse_product body with
  | .error es => (s, .err 422 (String.intercalate ", " es))
  | .ok p =>
      let r := create_document s p
      (r.2, .created r.1)

/-! Concrete fixtures used by several claims. -/

/-- The document of the search case-insensitivity scenario. -/
def whey_product : Product :=
  { title := "Whey Protein Powder", price := 29.99, category := "powder" }

/-- A store holding exactly `whey_product` under identifier 0. -/
def whey_store : Store := (create_document ⟨[], 0⟩ whey_product).2

/-! Helper lemmas shared by the claims. -/

/-- The empty filter document matches every stored document. -/
theorem matchesFilter_default (i : Nat) (p : Product) : matchesFilter {} i p = true := rfl

/-- Querying with the empty filter returns the first `n` documents. -/
theorem get_documents_match_all (s : Store) (n : Nat) :
    get_documents s {} n = s.docs.take n := by
  simp [get_documents, matchesFilter_default]

/-- The empty needle occurs in every character list. -/
theorem hasSubstr_nil (l : List Char) : hasSubstr [] l = true := by
  cases l <;> simp [hasSubstr, List.isPrefixOf]

/-- The empty term is a substring of every string. -/
theorem containsCI_empty_term (s : String) : containsCI s "" = true := by
  simp [containsCI, lowerStr, hasSubstr_nil]

/-- Seeding is a no-op on a non-empty collection. -/
theorem seed_products_noop (s : Store) (h : s.docs ≠ []) :
    seed_products s = (s, "Products already seeded") := by
  unfold seed_products
  rw [get_documents_match_all]
  cases hd : s.docs with
  | nil => exact absurd hd h
  | cons a t => simp

/-- Seeding an empty collection inserts the four sample products. -/
theorem seed_products_of_nil (s : Store) (h : s.docs = []) :
    (seed_products s).1.docs.length = 4 := by
  unfold seed_products
  rw [get_documents_match_all, h]
  simp [sample_products, create_document, h]

/-- The filter condition of `validate_product` holds exactly on violated
fields. -/
theorem filter_cond_iff (p : List (String × JVal))
    (fld : String × Bool × (JVal → Bool)) :
    ((match lookupKey p fld.1 with
      | none => fld.2.1
      | some v => !fld.2.2 v) = true) ↔
      field_violated p fld.1 fld.2.1 fld.2.2 := by
  cases h : lookupKey p fld.1 <;> simp [field_violated, h]

/-- A leading `_id` or `id` entry leaves the validation errors unchanged:
no declared field of the schema has either name. -/
theorem validate_product_extra_id (k : String) (v : JVal)
    (body : List (String × JVal)) (hk : k = "_id" ∨ k = "id") :
    (validate_product ((k, v) :: body)).1 = (validate_product body).1 := by
  cases hk with
  | inl h =>
      subst h
      simp [validate_product, product_fields, List.filter_cons, lookupKey]
  | inr h =>
      subst h
      simp [validate_product, product_fields, List.filter_cons, lookupKey]

/-! The claims. -/

/-- Claim C1 (code bug in src/main.py `get_product`): for an identifier
string of valid ObjectId shape that matches no stored document, the
handler does NOT surface a distinct 404 — the `HTTPException(404)` raised
in the body is swallowed by the blanket `except Exception` and re-raised
as a 500 whose detail merely quotes the 404, so NotFound is conflated
with internal errors, against the claim. -/
theorem C1_absent_id_yields_500 (s : Store) (pid : String)
    (hvalid : isValidObjectId pid = true)
    (habsent : get_documents s { idEq := some (natOfHex pid) } 1 = []) :
    get_product s pid = .err 500 (strOfExc (.http 404 "Product not found")) := by
  simp [get_product, get_product_body, hvalid, habsent]

/-- Claim C1, witness: the valid 24-character hexadecimal identifier
507f1f77bcf86cd799439011 queried against the empty store yields the 500
response, whose detail renders as "404: Product not found". -/
theorem C1_witness :
    get_product ⟨[], 0⟩ "507f1f77bcf86cd799439011" =
      .err 500 (strOfExc (.http 404 "Product not found")) ∧
    strOfExc (.http 404 "Product not found") = "404: Product not found" :=
  ⟨C1_absent_id_yields_500 ⟨[], 0⟩ "507f1f77bcf86cd799439011" (by decide) rfl, rfl⟩

/-- Claim C2: for an identifier string that does not conform to the
ObjectId shape, the body fails with the `InvalidId` kind — distinct from
every NotFound `HTTPException` — and the handler converts it into an
error response (status 500 with the decode message, per the endpoint
table of the spec) instead of letting the exception escape unhandled. -/
theorem C2_invalid_id_distinct (s : Store) (pid : String)
    (h : isValidObjectId pid = false) :
    get_product_body s pid = .error (.invalidId pid) ∧
    (∀ st d, PyExc.invalidId pid ≠ PyExc.http st d) ∧
    get_product s pid = .err 500 (strOfExc (.invalidId pid)) := by
  refine ⟨?_, ?_, ?_⟩
  · simp [get_product_body, h]
  · intro st d hc
    exact PyExc.noConfusion hc
  · simp [get_product, get_product_body, h]

/-- Claim C2, witness: the string not-a-valid-id is rejected as an invalid
identifier, not as a missing document and not as a crash. -/
theorem C2_witness :
    get_product_body ⟨[], 0⟩ "not-a-valid-id" = .error (.invalidId "not-a-valid-id") ∧
    (∀ st d, PyExc.invalidId "not-a-valid-id" ≠ PyExc.http st d) ∧
    get_product ⟨[], 0⟩ "not-a-valid-id" =
      .err 500 (strOfExc (.invalidId "not-a-valid-id")) :=
  C2_invalid_id_distinct ⟨[], 0⟩ "not-a-valid-id" (by decide)

/-- Claim C3: creating a payload and querying the returned identifier
yields exactly the created document with the same fields, and the
assigned identifier differs from every identifier previously assigned in
the collection (hypothesis: every existing identifier came from the
counter of the store, as all identifiers do). -/
theorem C3_round_trip (s : Store) (p : Product)
    (hwf : ∀ e ∈ s.docs, e.1 < s.nextId) :
    get_documents (create_document s p).2 { idEq := some (create_document s p).1 } 1 =
      [((create_document s p).1, p)] ∧
    ∀ e ∈ s.docs, e.1 ≠ (create_document s p).1 := by
  have hnone : s.docs.filter (fun e => e.1 == s.nextId) = [] := by
    refine List.filter_eq_nil_iff.mpr ?_
    intro e he
    have hlt := hwf e he
    simp
    omega
  constructor
  · simp [create_document, get_documents, List.filter_append, hnone, matchesFilter]
  · intro e he
    have hlt := hwf e he
    simp [create_document]
    omega

/-- Claim C3, witness: creating a second product in the one-document
store assigns the fresh identifier 1 and the round trip returns it. -/
theorem C3_witness :
    get_documents (create_document whey_store whey_product).2
        { idEq := some (create_document whey_store whey_product).1 } 1 =
      [((create_document whey_store whey_product).1, whey_product)] ∧
    ∀ e ∈ whey_store.docs, e.1 ≠ (create_document whey_store whey_product).1 :=
  C3_round_trip whey_store whey_product (by decide)

/-- Claim C4: with both parameters present and non-empty, the exact-match
condition on category and the free-text condition combine with logical
AND at the top level of the predicate, and with both parameters absent
the predicate is the unconstrained match-all. -/
theorem C4_conjunction_and_match_all :
    (∀ (c q : String) (i : Nat) (d : Product), c ≠ "" → q ≠ "" →
        matchesFilter (build_filter (some c) (some q)) i d =
          ((d.category == c) && matchesOr q d)) ∧
    (∀ (i : Nat) (d : Product), matchesFilter (build_filter none none) i d = true) := by
  constructor
  · intro c q i d hc hq
    have hc2 : c.isEmpty = false := by
      cases hcc : c.isEmpty
      · rfl
      · exact absurd ((String.isEmpty_iff c).mp hcc) hc
    have hq2 : q.isEmpty = false := by
      cases hqq : q.isEmpty
      · rfl
      · exact absurd ((String.isEmpty_iff q).mp hqq) hq
    simp [build_filter, truthy, hc2, hq2, matchesFilter]
  · intro i d
    rfl

/-- Claim C4, witness: the conjunction evaluated at category powder and
term whey on the whey document, and the match-all case on the same
document. -/
theorem C4_witness :
    matchesFilter (build_filter (some "powder") (some "whey")) 0 whey_product =
      ((whey_product.category == "powder") && matchesOr "whey" whey_product) ∧
    matchesFilter (build_filter none none) 0 whey_product = true :=
  ⟨C4_conjunction_and_match_all.1 "powder" "whey" 0 whey_product
      (by decide) (by decide),
   C4_conjunction_and_match_all.2 0 whey_product⟩

/-- Claim C5: a free-text query matches a document exactly when the term
occurs as a case-insensitive substring of the title, the description or
some tag (an absent optional field never matches; the empty term imposes
no constraint and the title — a required string — always contains it);
and the document titled "Whey Protein Powder" is returned for the terms
whey, WHEY and Whey. -/
theorem C5_text_search :
    (∀ (t : String) (i : Nat) (d : Product),
        matchesFilter (build_filter none (some t)) i d =
          (containsCI d.title t ||
            (match d.description with
             | none => false
             | some s => containsCI s t) ||
            (match d.tags with
             | none => false
             | some ts => ts.any (fun tg => containsCI tg t)))) ∧
    list_products whey_store none (some "whey") = [(0, whey_product)] ∧
    list_products whey_store none (some "WHEY") = [(0, whey_product)] ∧
    list_products whey_store none (some "Whey") = [(0, whey_product)] := by
  refine ⟨?_, rfl, rfl, rfl⟩
  intro t i d
  by_cases ht : t = ""
  · subst ht
    have h0 : ("".isEmpty) = true := rfl
    simp [build_filter, truthy, h0, matchesFilter, containsCI_empty_term]
  · have ht2 : t.isEmpty = false := by
      cases htt : t.isEmpty
      · rfl
      · exact absurd ((String.isEmpty_iff t).mp htt) ht
    simp [build_filter, truthy, ht2, matchesFilter, matchesOr]

/-- Claim C6: the seed operation is idempotent in a single-threaded run —
a collection holding any document at all makes seeding a no-op, and two
sequential seed calls leave the same document count as one. -/
theorem C6_seed_idempotent :
    (∀ s : Store, s.docs ≠ [] → seed_products s = (s, "Products already seeded")) ∧
    (∀ s : Store,
        ((seed_products (seed_products s).1).1).docs.length =
          ((seed_products s).1).docs.length) := by
  refine ⟨seed_products_noop, ?_⟩
  intro s
  by_cases hd : s.docs = []
  · have h4 : (seed_products s).1.docs.length = 4 := seed_products_of_nil s hd
    have hne : (seed_products s).1.docs ≠ [] := by
      intro hc
      rw [hc] at h4
      simp at h4
    rw [seed_products_noop _ hne]
  · simp [seed_products_noop s hd]

/-- Claim C7: a product query returns at most `limit` documents whatever
the store holds, and the route declares the limit parameter with default
value 50, so leaving it unspecified queries with 50. -/
theorem C7_limit_enforced :
    (∀ (s : Store) (c q : Option String) (k : Nat),
        (list_products s c q k).length ≤ k) ∧
    (∀ (s : Store) (c q : Option String),
        list_products s c q = list_products s c q 50) :=
  ⟨fun s c q k => by
      simp only [list_products, get_documents]
      exact List.length_take_le k _,
   fun _ _ _ => rfl⟩

/-- A payload violating three independent constraints: the required field
title is missing, price has the wrong type, and calories breaks its lower
bound. -/
def bad_payload : List (String × JVal) :=
  [("description", .jstr "tasty"), ("price", .jstr "free"),
   ("category", .jstr "snack"), ("calories", .jint (-5))]

/-- Claim C8: validation reports exactly the violated fields — membership
in the error list coincides with violation of the corresponding declared
constraint, so a payload violating N independent constraints is reported
with all N field names — the payload is handed on unchanged, and the
three-violation payload is reported with all three names. -/
theorem C8_validation_complete :
    (∀ (p : List (String × JVal)) (n : String),
        n ∈ (validate_product p).1 ↔
          ∃ fld ∈ product_fields, fld.1 = n ∧
            field_violated p fld.1 fld.2.1 fld.2.2) ∧
    (∀ p, (validate_product p).2 = p) ∧
    (validate_product bad_payload).1 = ["title", "price", "calories"] := by
  refine ⟨?_, fun p => rfl, by decide⟩
  intro p n
  simp only [validate_product, List.mem_map, List.mem_filter]
  constructor
  · rintro ⟨fld, ⟨hmem, hcond⟩, hname⟩
    exact ⟨fld, hmem, hname, (filter_cond_iff p fld).mp hcond⟩
  · rintro ⟨fld, hmem, hname, hviol⟩
    exact ⟨fld, ⟨hmem, (filter_cond_iff p fld).mpr hviol⟩, hname⟩

/-- A well-formed create payload that also carries the identifier field
`_id`. -/
def id_payload : List (String × JVal) :=
  [("_id", .jstr "507f1f77bcf86cd799439011"),
   ("title", .jstr "Protein Cookies"),
   ("price", .jint 20),
   ("category", .jstr "snack"),
   ("protein_grams", .jint 16)]

/-- The product that `id_payload` parses to: the `_id` entry is gone. -/
def id_payload_product : Product :=
  { title := "Protein Cookies", price := ((20 : Int) : Rat), category := "snack",
    protein_grams := some 16 }

/-- Claim C9, counterexample: a create payload carrying the identifier
field `_id` is NOT rejected as malformed — parsing succeeds, the create
handler persists the document (whose record type has no identifier
field, so nothing of the `_id` entry is stored) and answers with the
fresh store-assigned identifier. -/
theorem C9_counterexample :
    parse_product id_payload = .ok id_payload_product ∧
    create_product ⟨[], 0⟩ id_payload =
      (⟨[(0, id_payload_product)], 1⟩, .created 0) := by
  constructor <;> rfl

/-- Claim C9 as amended: a create payload containing an identifier field
(`_id` or `id`) is accepted, with that field silently ignored — parsing
the payload with the identifier entry equals parsing the payload without
it, so the identifier value is neither persisted nor reflected
anywhere. -/
theorem C9_id_field_ignored :
    (∀ (body : List (String × JVal)) (v : JVal),
        parse_product (("_id", v) :: body) = parse_product body) ∧
    (∀ (body : List (String × JVal)) (v : JVal),
        parse_product (("id", v) :: body) = parse_product body) := by
  constructor <;> intro body v <;>
    [have hk := validate_product_extra_id "_id" v body (Or.inl rfl);
     have hk := validate_product_extra_id "id" v body (Or.inr rfl)] <;>
    · unfold parse_product
      rw [hk]
      cases h : (validate_product body).1 with
      | nil => simp [lookupKey]
      | cons a t => rfl

/-- Claim C10: a `category` or `q` parameter supplied as the empty string
contributes no filter condition — the built filter equals the one built
without the parameter — and in particular category empty with no term
yields the match-all predicate. -/
theorem C10_empty_string_params :
    (∀ q : Option String, build_filter (some "") q = build_filter none q) ∧
    (∀ c : Option String, build_filter c (some "") = build_filter c none) ∧
    (∀ (i : Nat) (d : Product),
        matchesFilter (build_filter (some "") none) i d = true) := by
  have h0 : ("".isEmpty) = true := rfl
  refine ⟨fun q => ?_, fun c => ?_, fun i d => ?_⟩ <;>
    simp [build_filter, truthy, h0]
  rfl
